import Mathlib

/-!
Verification of the natural-language specification of the `sql_chat`
blockchain-database chat CLI (`cli_oai.js`) against a shallow Lean
embedding of its code.

Strings are modelled as `List Char` (JS strings); machine behaviour of
the remote services (OpenAI chat endpoint, PostgreSQL driver) is modelled
as environment oracles supplied to the embedded functions; the
interactive turn of `promptUser` is modelled as a pure function from the
environment responses to the ordered list of observable events of the
turn.
-/

/-- Coerce a Lean string literal to the `List Char` model of JS strings. -/
def str (s : String) : List Char := s.data

/-- The backtick character used by markdown code fences. -/
def tick : Char := '\x60'

/-- A markdown fence marker: three backticks. -/
def fence : List Char := [tick, tick, tick]

/-- The SQL-tagged opening fence marker written by the model. -/
def fenceSql : List Char := fence ++ str "sql"

/-- Whitespace recognised by JS `String.prototype.trim` (the ASCII part,
plus NBSP; the remaining exotic Unicode space code points are irrelevant
to the program's behaviour and are omitted from the model). -/
def isJsSpace (c : Char) : Bool :=
  c = ' ' || c = '\t' || c = '\n' || c = '\r' || c = '\x0b' || c = '\x0c' || c = '\xa0'

/-- Left part of JS `trim`. -/
def trimL (s : List Char) : List Char := s.dropWhile isJsSpace

/-- Right part of JS `trim`. -/
def trimR (s : List Char) : List Char := (s.reverse.dropWhile isJsSpace).reverse

/-- JS `s.trim()`. -/
def trimC (s : List Char) : List Char := trimR (trimL s)

/-- JS `s.replace(pat, "")` for a plain-string pattern: removes the first
occurrence of `pat` (scanning left to right), returns `s` unchanged when
`pat` does not occur. -/
def replaceFirst (pat : List Char) : List Char → List Char
  | [] => []
  | c :: rest =>
    if pat <+: (c :: rest) then (c :: rest).drop pat.length
    else c :: replaceFirst pat rest

/-- JS `s.replace(/```/g, "")`: removes every (leftmost-first,
non-overlapping) occurrence of the three-backtick fence marker. -/
def removeFences : List Char → List Char
  | [] => []
  | [c] => [c]
  | [c1, c2] => [c1, c2]
  | c1 :: c2 :: c3 :: rest =>
    if c1 = tick ∧ c2 = tick ∧ c3 = tick then removeFences rest
    else c1 :: removeFences (c2 :: c3 :: rest)

/-- The post-processing applied by `generateSQL` (cli_oai.js lines
228-235) to the raw model output: trim, then strip markdown code-block
markers — if the text starts with ```sql remove the first occurrence of
"```sql" and then the first occurrence of "```" and trim; otherwise if it
starts with "```" remove every fence globally and trim. -/
def sanitizeSQL (raw : List Char) : List Char :=
  let sql := trimC raw
  if fenceSql <+: sql then
    trimC (replaceFirst fence (replaceFirst fenceSql sql))
  else if fence <+: sql then
    trimC (removeFences sql)
  else sql

/-- JS `String.prototype.toLowerCase` on one character (ASCII part; the
error messages the program classifies are ASCII). -/
def toLowerChar (c : Char) : Char :=
  if 'A' ≤ c ∧ c ≤ 'Z' then Char.ofNat (c.toNat + 32) else c

/-- JS `s.toLowerCase()`. -/
def toLowerStr (s : List Char) : List Char := s.map toLowerChar

/-- The two user-facing classifications of a failed query (spec §3
`QueryResult` failure variant; cli_oai.js lines 475-477). -/
inductive ErrClass where
  | Syntax : ErrClass
  | Database : ErrClass
deriving DecidableEq

/-- cli_oai.js lines 475-477: `queryResult.error.toLowerCase().includes("syntax")
? "Syntax error" : "Database error"`. -/
def classifyError (msg : List Char) : ErrClass :=
  if str "syntax" <:+: toLowerStr msg then ErrClass.Syntax else ErrClass.Database

/- JSON-like values: the model of the JS values found in a query-result
row (node-postgres delivers rows as plain objects of primitives, parsed
JSON objects and arrays). `JArr`/`JObj` are inlined mutual list types so
that serialization is mutually structural (and hence kernel-evaluable). -/
mutual
inductive JVal where
  | jnull : JVal
  | jbool (b : Bool) : JVal
  | jnum (n : Int) : JVal
  | jstr (s : List Char) : JVal
  | jarr (items : JArr) : JVal
  | jobj (fields : JObj) : JVal
inductive JArr where
  | anil : JArr
  | acons (v : JVal) (rest : JArr) : JArr
inductive JObj where
  | onil : JObj
  | ocons (key : List Char) (v : JVal) (rest : JObj) : JObj
end

/-- Hexadecimal digit as emitted by `JSON.stringify` escapes (lowercase). -/
def hexDigit (n : Nat) : Char :=
  if n < 10 then Char.ofNat (48 + n) else Char.ofNat (87 + n)

/-- Escape of one character inside a JSON string literal, as
`JSON.stringify` performs it. -/
def jEscapeChar (c : Char) : List Char :=
  if c = '"' then ['\\', '"']
  else if c = '\\' then ['\\', '\\']
  else if c = '\x08' then ['\\', 'b']
  else if c = '\x0c' then ['\\', 'f']
  else if c = '\n' then ['\\', 'n']
  else if c = '\r' then ['\\', 'r']
  else if c = '\t' then ['\\', 't']
  else if c.toNat < 32 then ['\\', 'u', '0', '0', hexDigit (c.toNat / 16), hexDigit (c.toNat % 16)]
  else [c]

/-- A JSON string literal with quotes and escapes. -/
def jquote (s : List Char) : List Char := '"' :: (s.map jEscapeChar).flatten ++ ['"']

/- `JSON.stringify(v)` (no indentation), as used by `formatResultTable`
(cli_oai.js line 354) for object-typed cell values. -/
mutual
def jstringifyC : JVal → List Char
  | .jnull => str "null"
  | .jbool true => str "true"
  | .jbool false => str "false"
  | .jnum n => str (toString n)
  | .jstr s => jquote s
  | .jarr items => '[' :: jarrBodyC items ++ [']']
  | .jobj fields => '\x7b' :: jobjBodyC fields ++ ['\x7d']
def jarrBodyC : JArr → List Char
  | .anil => []
  | .acons v .anil => jstringifyC v
  | .acons v rest => jstringifyC v ++ ',' :: jarrBodyC rest
def jobjBodyC : JObj → List Char
  | .onil => []
  | .ocons k v .onil => jquote k ++ ':' :: jstringifyC v
  | .ocons k v rest => jquote k ++ ':' :: jstringifyC v ++ ',' :: jobjBodyC rest
end

/-- Indentation prefix used by `JSON.stringify(v, null, 2)` at depth `d`. -/
def jindent (d : Nat) : List Char := List.replicate (2 * d) ' '

/- `JSON.stringify(v, null, 2)` at nesting depth `d`, as used by
`generateResponse` (cli_oai.js line 255) for the result sample. -/
mutual
def jstringifyI (d : Nat) : JVal → List Char
  | .jnull => str "null"
  | .jbool true => str "true"
  | .jbool false => str "false"
  | .jnum n => str (toString n)
  | .jstr s => jquote s
  | .jarr .anil => str "[]"
  | .jarr items => '[' :: '\n' :: jarrBodyI (d + 1) items ++ '\n' :: jindent d ++ [']']
  | .jobj .onil => str "\x7b\x7d"
  | .jobj fields => '\x7b' :: '\n' :: jobjBodyI (d + 1) fields ++ '\n' :: jindent d ++ ['\x7d']
def jarrBodyI (d : Nat) : JArr → List Char
  | .anil => []
  | .acons v .anil => jindent d ++ jstringifyI d v
  | .acons v rest => jindent d ++ jstringifyI d v ++ ',' :: '\n' :: jarrBodyI d rest
def jobjBodyI (d : Nat) : JObj → List Char
  | .onil => []
  | .ocons k v .onil => jindent d ++ jquote k ++ ':' :: ' ' :: jstringifyI d v
  | .ocons k v rest =>
    jindent d ++ jquote k ++ ':' :: ' ' :: jstringifyI d v ++ ',' :: '\n' :: jobjBodyI d rest
end

/-- Turn a Lean list of JSON values into the inlined `JArr` list. -/
def jarrOfList : List JVal → JArr
  | [] => JArr.anil
  | v :: rest => JArr.acons v (jarrOfList rest)

/-- cli_oai.js lines 32-67: the static schema description handed to the
generation prompt (template literal `SCHEMA_INFO`). -/
def SCHEMA_INFO : List Char := str "\nThe database schema consists of the following tables:\n1. **blocks_base**: Stores blockchain block details.\n   - Columns: id, hash, parentHash, timestamp, number, gasLimit, gasUsed, transactionsRoot, receiptsRoot, logsBloom, difficulty, baseFeePerGas, withdrawalsRoot, blobGasUsed, excessBlobGas, parentBeaconBlockRoot, sha3Uncles, miner, stateRoot, nonce, mixHash, extraData, createdAt, updatedAt.\n   - Unique Index: (hash, id).\n2. **deposit_erc20_base**: Stores ERC-20 token deposit logs.\n   - Columns: id, address, topics, data, block_hash, block_number, transaction_hash, transaction_index, log_index, removed, from, to, value.\n   - Unique Index: (transaction_hash, from, id).\n3. **pools_base**: Stores details of token pools.\n   - Columns: id, pool_address, token_a_address, token_b_address, token_a_details, token_b_details, created_at, updated_at.\n   - Unique Index: (id).\n4. **tokens_base**: Stores token details.\n   - Columns: id, token_address, name, symbol, decimals, total_supply, price, created_at, updated_at.\n   - Unique Index: (token_address).\n5. **token_trades_base**: Stores trade records of tokens.\n   - Columns: id, token_address, name, symbol, decimals, total_supply, price, created_at, updated_at, pool_address, transaction_hash.\n   - Unique Index: (token_address, transaction_hash, id).\n6. **transactions_base**: Stores blockchain transaction details.\n   - Columns: id, type, chain_id, nonce, gas_price, gas, to, value, input, r, s, v, hash, block_hash, block_number, transaction_index, from.\n   - Index: (hash, from, id).\n7. **transfer_erc20_base**: Stores ERC-20 token transfer logs.\n   - Columns: id, contract_address, topics, data, block_hash, block_number, transaction_hash, transaction_index, log_index, removed, from, to, value.\n   - Unique Index: (transaction_hash, from, id).\n8. **transfer_erc721_base**: Stores ERC-721 (NFT) transfer logs.\n   - Columns: id, contract_address, topics, data, block_hash, block_number, transaction_hash, transaction_index, log_index, removed, from_address, to_address, token_id.\n   - Unique Index: (transaction_hash, from_address, id).\n9. **users**: Stores user details.\n   - Columns: id, email, password, project_name, limit, created_at, updated_at.\n   - Unique Constraint: (email, id).\n10. **users_base**: Stores blockchain user balances.\n    - Columns: id, address, balances, created_at, updated_at.\n    - Index: (address, id).\n11. **withdrawal_erc20_base**: Stores ERC-20 withdrawal logs.\n    - Columns: id, address, topics, data, block_hash, block_number, transaction_hash, transaction_index, log_index, removed, from, to, value.\n    - Unique Index: (transaction_hash, from, id).\n"

/-- cli_oai.js lines 70-82: the domain glossary (template literal
`BLOCKCHAIN_CONTEXT`). -/
def BLOCKCHAIN_CONTEXT : List Char := str "\nCommon blockchain terms and concepts:\n- Address: A 42-character hexadecimal string starting with \x270x\x27 that represents an account or contract\n- Hash: A 66-character hexadecimal string starting with \x270x\x27 that uniquely identifies blocks or transactions\n- Token: A fungible asset on the blockchain (ERC-20 standard)\n- NFT: A non-fungible token on the blockchain (ERC-721 standard)\n- Block: A container for transactions, each with a unique hash and number\n- Transaction: A transfer of value or data between addresses\n- Gas: Cost to execute operations on the blockchain\n- Base Chain: An Ethereum Layer 2 blockchain built with the OP Stack\n- In this database, \x27value\x27 columns for tokens often use wei (1 ETH = 10^18 wei)\n- Timestamps are typically stored in Unix epoch time (seconds since Jan 1, 1970)\n"

/-- cli_oai.js lines 85-129: the worked-example query corpus (template
literal `EXAMPLE_QUERIES`). -/
def EXAMPLE_QUERIES : List Char := str "\nExample SQL queries for common blockchain questions:\n\n-- Get the 10 most recent blocks\nSELECT hash, number, timestamp, gasUsed, gasLimit, miner\nFROM blocks_base\nORDER BY CAST(number AS BIGINT) DESC\nLIMIT 10;\n\n-- Get the top 10 tokens by price\nSELECT token_address, name, symbol, decimals, price\nFROM tokens_base\nWHERE price IS NOT NULL\nORDER BY CAST(price AS DECIMAL) DESC\nLIMIT 10;\n\n-- Get the top 10 addresses by number of transactions\nSELECT \"from\" as address, COUNT(*) as tx_count\nFROM transactions_base\nGROUP BY \"from\"\nORDER BY tx_count DESC\nLIMIT 10;\n\n-- Get the total value of ERC-20 transfers for each token\nSELECT contract_address, SUM(CAST(value AS DECIMAL)) as total_value\nFROM transfer_erc20_base\nGROUP BY contract_address\nORDER BY total_value DESC\nLIMIT 10;\n\n-- Get average gas used per block over time (by day)\nSELECT \n    TO_TIMESTAMP(CAST(timestamp AS BIGINT)) as block_date,\n    AVG(CAST(gasUsed AS DECIMAL)) as avg_gas_used\nFROM blocks_base\nGROUP BY TO_CHAR(TO_TIMESTAMP(CAST(timestamp AS BIGINT)), \x27YYYY-MM-DD\x27)\nORDER BY block_date;\n\n-- Get all ERC-721 (NFT) transfers for a specific token contract\nSELECT from_address, to_address, token_id, transaction_hash\nFROM transfer_erc721_base\nWHERE contract_address = \x270x123abc...\x27\nORDER BY block_number DESC\nLIMIT 20;\n"

/-- The generation system message composed by `generateSQL` (cli_oai.js
lines 194-215, template literal with the `schemaInfo` and `chain`
splices). -/
def genSystemMessage (schemaInfo chain : List Char) : List Char :=
  str "You are an expert SQL generator for a blockchain database. \nYour task is to convert natural language questions into PostgreSQL queries.\n\n" ++
  schemaInfo ++ str "\n\n" ++ BLOCKCHAIN_CONTEXT ++ str "\n\n" ++ EXAMPLE_QUERIES ++
  str "\n\nImportant SQL writing guidelines:\n1. Always generate valid PostgreSQL syntax\n2. Use table names with the suffix \x27_" ++
  chain ++
  str "\x27 unless referring to the \x27users\x27 table\n3. Handle quoting properly for reserved words like \"from\" and \"to\" in table columns\n4. Cast numeric strings to appropriate types (DECIMAL, BIGINT) when needed for math operations\n5. Use TO_TIMESTAMP() for timestamp conversions when needed\n6. Format timestamps in human-readable format when returning them\n7. Use proper JOIN syntax when combining tables\n8. Add LIMIT clauses (usually LIMIT 10 or 20) unless asked for all records\n9. Add proper WHERE clauses to filter data based on the user\x27s question\n10. NEVER use column names that don\x27t exist in the tables\n\nOUTPUT FORMAT: Return ONLY the SQL query, no explanations or markdown formatting."

/-- The user message of the generation call (cli_oai.js line 223). -/
def genUserMessage (prompt : List Char) : List Char :=
  str "Generate PostgreSQL query for: " ++ prompt

/-- Message roles of the chat endpoint. -/
inductive Role where
  | system : Role
  | user : Role
deriving DecidableEq

/-- A request to the language-model chat endpoint: model identifier,
ordered role-tagged messages and the decoding temperature (stored as
tenths: the source uses 0.1 for generation and 0.7 for summarization). -/
structure ChatRequest where
  model : List Char
  messages : List (Role × List Char)
  temperatureTenths : Nat
deriving DecidableEq

/-- The environment's answer to one chat call: either a thrown error, or
a response whose `choices[i].message.content` fields are the listed
(nullable) contents. -/
inductive LLMOutcome where
  | err (msg : List Char) : LLMOutcome
  | ok (choices : List (Option (List Char))) : LLMOutcome

/-- Result shape of `generateSQL`: the source returns `{sql, error:null}`
on success and `{sql:null, error}` on failure — exactly one side is
populated, so the pair is modelled as a sum. -/
inductive GenRes where
  | ok (sql : List Char) : GenRes
  | fail (error : List Char) : GenRes
deriving DecidableEq

/-- Modelled text of the runtime TypeError thrown when
`response.choices[0]` is absent (`Cannot read properties of undefined`);
it is caught by the surrounding `try` like any remote error. -/
def undefinedChoiceMsg : List Char :=
  str "Cannot read properties of undefined (reading \x27message\x27)"

/-- Modelled text of the runtime TypeError thrown when the returned
`content` is null and `.trim()` is called on it. -/
def nullContentMsg : List Char :=
  str "Cannot read properties of null (reading \x27trim\x27)"

/-- The chat request issued by `generateSQL` (cli_oai.js lines 219-226). -/
def genRequest (prompt schemaInfo chain model : List Char) : ChatRequest :=
  { model := model
    messages := [(Role.system, genSystemMessage schemaInfo chain), (Role.user, genUserMessage prompt)]
    temperatureTenths := 1 }

/-- cli_oai.js lines 192-241 (`generateSQL`): one chat call, then fence
stripping of the content; any thrown error (remote failure, missing
choice, null content) is caught and converted to
`Error generating SQL: <message>` with no retry. -/
def generateSQL (llm : ChatRequest → LLMOutcome)
    (prompt schemaInfo chain model : List Char) : GenRes :=
  match llm (genRequest prompt schemaInfo chain model) with
  | .err m => GenRes.fail (str "Error generating SQL: " ++ m)
  | .ok choices =>
    match choices.head? with
    | none => GenRes.fail (str "Error generating SQL: " ++ undefinedChoiceMsg)
    | some none => GenRes.fail (str "Error generating SQL: " ++ nullContentMsg)
    | some (some content) => GenRes.ok (sanitizeSQL content)

/-- The environment's answer to one database query: the driver either
throws (error message) or yields a result with optional row set, field
names and a row count. -/
inductive DBResponse where
  | err (msg : List Char) : DBResponse
  | ok (rows : Option (List JObj)) (fields : List (List Char)) (rowCount : Nat) : DBResponse

/-- Result shape of `executeQuery` (cli_oai.js lines 159-181): rows with
column metadata, a rows-less mutation result, or a captured driver
error (`{rows:null, error}`). -/
inductive QueryResult where
  | results (rows : List JObj) (columnNames : List (List Char)) (rowCount : Nat) : QueryResult
  | noResultSet (affectedRows : Nat) (message : List Char) : QueryResult
  | failure (error : List Char) : QueryResult

/-- cli_oai.js lines 159-181 (`executeQuery`). -/
def executeQuery (db : List Char → DBResponse) (sql : List Char) : QueryResult :=
  match db sql with
  | .err m => QueryResult.failure m
  | .ok (some rows) fields rowCount => QueryResult.results rows fields rowCount
  | .ok none _ rowCount =>
    QueryResult.noResultSet rowCount
      (str "Query executed successfully. Rows affected: " ++ str (Nat.repr rowCount))

/-- The JS `rows` field of a query result (`null` on the error shape,
`[]` on the mutation shape). -/
def qrRowsOf : QueryResult → Option (List JObj)
  | .results rows _ _ => some rows
  | .noResultSet _ _ => some []
  | .failure _ => none

/-- The JS `columnNames` field (absent on the other two shapes). -/
def qrColsOf : QueryResult → Option (List (List Char))
  | .results _ cols _ => some cols
  | .noResultSet _ _ => none
  | .failure _ => none

/-- The JS `rowCount` field as read on the success display path. -/
def qrRowCount : QueryResult → Nat
  | .results _ _ rc => rc
  | .noResultSet a _ => a
  | .failure _ => 0

/-- The summary system message of `generateResponse` (cli_oai.js lines
261-275). -/
def sumSystemMessage : List Char :=
  str "You are an expert blockchain data analyst who provides clear, concise explanations.\nYour task is to explain query results from a blockchain database in natural language.\nFocus on providing insights and interpreting the data for the user.\n\nInclude relevant statistics like:\n- Key metrics and totals\n- Interesting patterns or outliers\n- Time-based trends if applicable\n- Relationships between different data points\n\nMake your response conversational and informative for non-technical users.\nIf no results were found, explain why there might be no data and suggest alternatives.\n\nOUTPUT FORMAT: A conversational paragraph or two explaining the results, plus 2-3 bullet points highlighting key insights.\nDO NOT include the SQL query in your response unless it\x27s specifically requested."

/-- The summary user message of `generateResponse` (cli_oai.js lines
253-285): question, query, row count, joined column names and a
2-space-indented serialization of the first 5 rows. -/
def summaryUserMessage (prompt sql : List Char) (results : QueryResult) : List Char :=
  let rowsOpt := qrRowsOf results
  let resultSample :=
    match rowsOpt with
    | some rows =>
      if 0 < rows.length then jstringifyI 0 (JVal.jarr (jarrOfList ((rows.take 5).map JVal.jobj)))
      else str "No results found"
    | none => str "No results found"
  let rowCount := match rowsOpt with | some rows => rows.length | none => 0
  let colNames :=
    match qrColsOf results with
    | some cols => List.intercalate (str ", ") cols
    | none => []
  str "User question: " ++ prompt ++ str "\nSQL query used: " ++ sql ++
  str "\nNumber of rows returned: " ++ str (Nat.repr rowCount) ++
  str "\nColumn names: " ++ colNames ++
  str "\nSample of results (first 5 rows):\n" ++ resultSample ++
  str "\n\nPlease provide a natural language explanation of these results, focusing on insights that answer the user\x27s question."

/-- Result shape of `generateResponse`: the source returns
`{response, error:null}` on success (the response itself may be a null
content) and `{response:null, error}` on a caught error. -/
structure SumRes where
  response : Option (List Char)
  error : Option (List Char)
deriving DecidableEq

/-- The chat request issued by `generateResponse` (cli_oai.js lines
289-296). -/
def sumRequest (prompt sql : List Char) (results : QueryResult) (model : List Char) : ChatRequest :=
  { model := model
    messages := [(Role.system, sumSystemMessage), (Role.user, summaryUserMessage prompt sql results)]
    temperatureTenths := 7 }

/-- cli_oai.js lines 252-302 (`generateResponse`). -/
def generateResponse (llm : ChatRequest → LLMOutcome)
    (prompt sql : List Char) (results : QueryResult) (model : List Char) : SumRes :=
  match llm (sumRequest prompt sql results model) with
  | .err m => { response := none, error := some (str "Error generating response: " ++ m) }
  | .ok choices =>
    match choices.head? with
    | none => { response := none, error := some (str "Error generating response: " ++ undefinedChoiceMsg) }
    | some c => { response := c, error := none }

/-- cli_oai.js line 355: `String(value).substring(0, 30) +
(String(value).length > 30 ? '...' : '')`. -/
def truncate30 (s : List Char) : List Char :=
  s.take 30 ++ (if 30 < s.length then str "..." else [])

/-- The cell-rendering step of `formatResultTable` (cli_oai.js lines
352-355): null cells render as `NULL`, object-typed cells as their full
JSON serialization, everything else as its string form truncated to 30
characters with an ellipsis. `none` models a missing property
(JS `undefined`, whose `String()` form is "undefined"). -/
def formatValue : Option JVal → List Char
  | some JVal.jnull => str "NULL"
  | some (JVal.jobj fields) => jstringifyC (JVal.jobj fields)
  | some (JVal.jarr items) => jstringifyC (JVal.jarr items)
  | some (JVal.jstr s) => truncate30 s
  | some (JVal.jnum n) => truncate30 (str (toString n))
  | some (JVal.jbool b) => truncate30 (str (toString b))
  | none => truncate30 (str "undefined")

/-- JS property access `row[col]` on a row object. -/
def rowGet (row : JObj) (col : List Char) : Option JVal :=
  match row with
  | .onil => none
  | .ocons k v rest => if k = col then some v else rowGet rest col

/-- The data content of the rendered result table: either the literal
"No results" string or a header row plus the rendered body cells. -/
inductive TableView where
  | noResults : TableView
  | table (head : List (List Char)) (body : List (List (List Char))) : TableView
deriving DecidableEq

/-- cli_oai.js lines 338-361 (`formatResultTable`): guard for missing or
empty input, then render at most the first 10 rows, one formatted cell
per column name. -/
def formatResultTable (rows : Option (List JObj)) (columnNames : Option (List (List Char))) :
    TableView :=
  match rows, columnNames with
  | none, _ => TableView.noResults
  | some _, none => TableView.noResults
  | some rows, some cols =>
    if rows.length = 0 then TableView.noResults
    else
      TableView.table cols
        ((rows.take 10).map (fun row => cols.map (fun col => formatValue (rowGet row col))))

/-- The observable events of one interactive turn, in order. -/
inductive Event where
  | genCall : Event
  | showGenError (msg : List Char) : Event
  | showSQL (sql : List Char) : Event
  | dbExec (sql : List Char) : Event
  | showExecError (cls : ErrClass) (msg : List Char) : Event
  | showNoResults : Event
  | showRowCount (n : Nat) : Event
  | showTable (t : TableView) : Event
  | askExport : Event
  | csvNoData : Event
  | csvFileWrite : Event
  | sumCall : Event
  | showInsights (response : Option (List Char)) : Event
  | showSumError (msg : List Char) : Event
  | promptAgain : Event
  | closeSession : Event
deriving DecidableEq

/-- cli_oai.js lines 379-399 (`exportToCSV`), as its events: with no rows
it only prints "No data to export" and returns without creating a file;
otherwise it writes the CSV file. -/
def exportToCSV (rows : List JObj) : List Event :=
  if rows.length = 0 then [Event.csvNoData] else [Event.csvFileWrite]

/-- One turn of the interactive loop, cli_oai.js lines 437-529
(`promptUser`): exit/blank handling, generation, execution with error
classification, the empty-result short-circuit, result display, the CSV
question, summarization, and the return to the prompt. The environment
answers (`llm`, `db`, the user's export answer) are inputs; the value is
the ordered list of observable events of the turn. -/
def runTurn (llm : ChatRequest → LLMOutcome) (db : List Char → DBResponse)
    (prompt exportAnswer chain model : List Char) : List Event :=
  if toLowerStr prompt = str "exit" ∨ toLowerStr prompt = str "quit" then [Event.closeSession]
  else if trimC prompt = [] then [Event.promptAgain]
  else
    Event.genCall ::
    match generateSQL llm prompt SCHEMA_INFO chain model with
    | .fail e => [Event.showGenError e, Event.promptAgain]
    | .ok sql =>
      Event.showSQL sql :: Event.dbExec sql ::
      match executeQuery db sql with
      | .failure err => [Event.showExecError (classifyError err) err, Event.promptAgain]
      | .noResultSet _ _ => [Event.showNoResults, Event.promptAgain]
      | .results rows cols rc =>
        if rows.length = 0 then [Event.showNoResults, Event.promptAgain]
        else
          Event.showRowCount rc ::
          Event.showTable (formatResultTable (some rows) (some cols)) ::
          Event.askExport ::
          ((if toLowerStr exportAnswer = str "y" then exportToCSV rows else []) ++
           Event.sumCall ::
           (match generateResponse llm prompt sql (QueryResult.results rows cols rc) model with
            | ⟨_, some e⟩ => [Event.showSumError e]
            | ⟨r, none⟩ => [Event.showInsights r]) ++
           [Event.promptAgain])

/-- `trim` only removes characters at the two ends, so its result is an
infix of its argument. -/
theorem trimR_prefix_self (s : List Char) : trimR s <+: s := by
  have h := List.reverse_prefix.mpr (List.dropWhile_suffix (l := s.reverse) isJsSpace)
  simpa [trimR] using h

theorem trimC_infix_self (s : List Char) : trimC s <:+: s :=
  ((trimR_prefix_self (trimL s)).isInfix).trans ((List.dropWhile_suffix _).isInfix)

/-- If a string does not begin with a backtick, the fence-removal scan
keeps its head. -/
theorem removeFences_head (c : Char) (rest : List Char) (h : c ≠ tick) :
    ∃ out, removeFences (c :: rest) = c :: out := by
  match rest with
  | [] => exact ⟨[], rfl⟩
  | [c2] => exact ⟨[c2], rfl⟩
  | c2 :: c3 :: r =>
    refine ⟨removeFences (c2 :: c3 :: r), ?_⟩
    simp only [removeFences]
    rw [if_neg]
    intro hc
    exact h hc.1

/-- After the scan, a string that began `tick, non-tick` cannot begin
with two backticks. -/
theorem removeFences_two (c3 : Char) (r : List Char) (h : c3 ≠ tick) :
    ¬ [tick, tick] <+: removeFences (tick :: c3 :: r) := by
  match r with
  | [] =>
    intro hp
    rw [show removeFences [tick, c3] = [tick, c3] from rfl, List.cons_prefix_cons,
      List.cons_prefix_cons] at hp
    exact h hp.2.1.symm
  | r0 :: r' =>
    intro hp
    have hrw : removeFences (tick :: c3 :: r0 :: r') = tick :: removeFences (c3 :: r0 :: r') := by
      simp only [removeFences]
      rw [if_neg]
      intro hc
      exact h hc.2.1
    rw [hrw, List.cons_prefix_cons] at hp
    obtain ⟨out, hout⟩ := removeFences_head c3 (r0 :: r') h
    rw [hout, List.cons_prefix_cons] at hp
    exact h hp.2.1.symm

/-- The global fence removal of the generic branch leaves no fence
marker anywhere in its output. -/
theorem removeFences_no_fence (s : List Char) : ¬ fence <:+: removeFences s := by
  induction s using removeFences.induct with
  | case1 =>
    intro hf
    have := hf.length_le
    simp [fence, removeFences] at this
  | case2 c =>
    intro hf
    have := hf.length_le
    simp [fence, removeFences] at this
  | case3 c1 c2 =>
    intro hf
    have := hf.length_le
    simp [fence, removeFences] at this
  | case4 c1 c2 c3 rest hc ih =>
    simp only [removeFences, if_pos hc]
    exact ih
  | case5 c1 c2 c3 rest hc ih =>
    simp only [removeFences, if_neg hc]
    intro hf
    rcases List.infix_cons_iff.mp hf with hp | hi
    · rw [show fence = tick :: tick :: [tick] from rfl, List.cons_prefix_cons] at hp
      obtain ⟨hc1, hp2⟩ := hp
      by_cases hc2 : c2 = tick
      · have hc3 : c3 ≠ tick := fun hc3 => hc (⟨hc1.symm, hc2, hc3⟩)
        subst hc2
        exact removeFences_two c3 rest hc3 hp2
      · obtain ⟨out, hout⟩ := removeFences_head c2 (c3 :: rest) hc2
        rw [hout, List.cons_prefix_cons] at hp2
        exact hc2 hp2.1.symm
    · exact ih hi

/-- JS `replace` removes a leading occurrence of the pattern. -/
theorem replaceFirst_self_append (pat u : List Char) (h : pat ≠ []) :
    replaceFirst pat (pat ++ u) = u := by
  cases pat with
  | nil => exact absurd rfl h
  | cons p ps =>
    rw [List.cons_append]
    simp only [replaceFirst]
    rw [if_pos (by rw [← List.cons_append]; exact List.prefix_append _ _)]
    rw [← List.cons_append, List.drop_left]

/-- Removing the first fence occurrence from `body ++ fence` recovers
`body` whenever `body` itself contains no fence. -/
theorem replaceFirst_body_fence (body : List Char) (h : ¬ fence <:+: body) :
    replaceFirst fence (body ++ fence) = body := by
  induction body with
  | nil => decide
  | cons c rest ih =>
    rw [List.cons_append]
    simp only [replaceFirst]
    by_cases hp : fence <+: c :: (rest ++ fence)
    · rw [if_pos hp]
      rw [show fence = tick :: tick :: [tick] from rfl, List.cons_prefix_cons] at hp
      obtain ⟨hc, hp2⟩ := hp
      subst hc
      cases rest with
      | nil => decide
      | cons d rest2 =>
        rw [List.cons_append, List.cons_prefix_cons] at hp2
        obtain ⟨hd, hp3⟩ := hp2
        subst hd
        cases rest2 with
        | nil => decide
        | cons e rest3 =>
          rw [List.cons_append, List.cons_prefix_cons] at hp3
          obtain ⟨he, _⟩ := hp3
          subst he
          exact absurd (List.IsPrefix.isInfix ⟨rest3, rfl⟩) h
    · rw [if_neg hp, ih (fun hf => h (List.infix_cons hf))]

/-- Generic-fence branch of `sanitizeSQL`: every fence marker is
removed. -/
theorem sanitizeSQL_generic_no_fence (raw : List Char)
    (h1 : fence <+: trimC raw) (h2 : ¬ fenceSql <+: trimC raw) :
    ¬ fence <:+: sanitizeSQL raw := by
  unfold sanitizeSQL
  rw [if_neg h2, if_pos h1]
  intro hf
  exact removeFences_no_fence _ (hf.trans (trimC_infix_self _))

/-- SQL-tagged branch of `sanitizeSQL` on a well-formed single fenced
block: the result is the trimmed body and contains no fence marker. -/
theorem sanitizeSQL_sql_fence (raw body : List Char)
    (heq : trimC raw = fenceSql ++ body ++ fence) (hb : ¬ fence <:+: body) :
    sanitizeSQL raw = trimC body ∧ ¬ fence <:+: sanitizeSQL raw := by
  have hpre : fenceSql <+: trimC raw := by
    rw [heq, List.append_assoc]
    exact List.prefix_append _ _
  have hres : sanitizeSQL raw = trimC body := by
    unfold sanitizeSQL
    rw [if_pos hpre, heq, List.append_assoc,
      replaceFirst_self_append _ _ (by decide), replaceFirst_body_fence body hb]
  refine ⟨hres, ?_⟩
  rw [hres]
  intro hf
  exact hb (hf.trans (trimC_infix_self body))

/-- C1. The claim "for every generated model output that contains a
fence marker, the sanitized query text contains no fence-marker
substring" is false on the code: an output that contains a fence marker
but does not begin with one is returned by `generateSQL`'s
post-processing unchanged, fence included. -/
theorem C1_counterexample :
    fence <:+: str "SELECT 1; \x60\x60\x60" ∧
    fence <:+: sanitizeSQL (str "SELECT 1; \x60\x60\x60") := by decide

/-- C1 (amended). Fence markers are only stripped from outputs whose
trimmed text begins with a fence: (1) if the trimmed output begins with
the generic marker but not with the SQL-tagged one, the global
replacement leaves no fence-marker substring in the sanitized text;
(2) if the trimmed output is a single well-formed SQL-tagged fenced
block whose body contains no fence marker, the sanitized text is the
trimmed body and contains no fence-marker substring. -/
theorem C1_sanitize_fences_amended :
    (∀ raw : List Char, fence <+: trimC raw → ¬ fenceSql <+: trimC raw →
      ¬ fence <:+: sanitizeSQL raw) ∧
    (∀ raw body : List Char, trimC raw = fenceSql ++ body ++ fence → ¬ fence <:+: body →
      sanitizeSQL raw = trimC body ∧ ¬ fence <:+: sanitizeSQL raw) :=
  ⟨sanitizeSQL_generic_no_fence, sanitizeSQL_sql_fence⟩

/-- Witness for C1 (amended) at two concrete raw outputs, one per
branch. -/
theorem C1_sanitize_fences_amended_witness :
    (¬ fence <:+: sanitizeSQL (str "\x60\x60\x60\nSELECT 2\n\x60\x60\x60")) ∧
    (sanitizeSQL (str "\x60\x60\x60sql\nSELECT 1\n\x60\x60\x60") = trimC (str "\nSELECT 1\n") ∧
      ¬ fence <:+: sanitizeSQL (str "\x60\x60\x60sql\nSELECT 1\n\x60\x60\x60")) :=
  ⟨C1_sanitize_fences_amended.1 (str "\x60\x60\x60\nSELECT 2\n\x60\x60\x60") (by decide) (by decide),
   C1_sanitize_fences_amended.2 (str "\x60\x60\x60sql\nSELECT 1\n\x60\x60\x60") (str "\nSELECT 1\n")
     (by decide) (by decide)⟩

/-- C2. The classification of a failing query execution is `Syntax`
exactly when the lowercased driver error message contains the substring
"syntax" and `Database` otherwise, and the classification does not alter
control flow: whatever the message, a turn whose execution fails
produces the same event sequence — the error display followed by the
return to the prompt — with the classification appearing only inside the
displayed payload. -/
theorem C2_error_classification :
    (∀ msg : List Char,
      classifyError msg = ErrClass.Syntax ↔ str "syntax" <:+: toLowerStr msg) ∧
    (∀ (llm : ChatRequest → LLMOutcome) (db : List Char → DBResponse)
       (prompt exportAnswer chain model sql m : List Char),
      ¬(toLowerStr prompt = str "exit" ∨ toLowerStr prompt = str "quit") →
      trimC prompt ≠ [] →
      generateSQL llm prompt SCHEMA_INFO chain model = GenRes.ok sql →
      db sql = DBResponse.err m →
      runTurn llm db prompt exportAnswer chain model =
        [Event.genCall, Event.showSQL sql, Event.dbExec sql,
         Event.showExecError (classifyError m) m, Event.promptAgain]) := by
  constructor
  · intro msg
    unfold classifyError
    by_cases h : str "syntax" <:+: toLowerStr msg
    · simp [h]
    · simp [h]
  · intro llm db prompt exportAnswer chain model sql m hx1 hx2 hgen hdb
    simp only [runTurn, if_neg hx1, if_neg hx2, hgen, executeQuery, hdb]

/-- Witness for C2 on the spec's own scenario message. -/
theorem C2_error_classification_witness :
    classifyError (str "ERROR: syntax error at or near SELECT") = ErrClass.Syntax ∧
    runTurn (fun _ => LLMOutcome.ok [some (str "SELECT 1")])
        (fun _ => DBResponse.err (str "ERROR: syntax error at or near SELECT"))
        (str "how many blocks") (str "n") (str "base") (str "gpt-4o-mini") =
      [Event.genCall, Event.showSQL (str "SELECT 1"), Event.dbExec (str "SELECT 1"),
       Event.showExecError (classifyError (str "ERROR: syntax error at or near SELECT"))
         (str "ERROR: syntax error at or near SELECT"),
       Event.promptAgain] :=
  ⟨(C2_error_classification.1 (str "ERROR: syntax error at or near SELECT")).mpr (by decide),
   C2_error_classification.2 (fun _ => LLMOutcome.ok [some (str "SELECT 1")])
     (fun _ => DBResponse.err (str "ERROR: syntax error at or near SELECT"))
     (str "how many blocks") (str "n") (str "base") (str "gpt-4o-mini")
     (str "SELECT 1") (str "ERROR: syntax error at or near SELECT")
     (by decide) (by decide) (by decide) rfl⟩

/-- C3. A turn whose execution succeeds with zero rows (the JS `rows`
field is `[]`, which is also what the mutation shape carries) never
reaches the summarizer and never writes a CSV file, and ends back at the
prompt; moreover `exportToCSV` itself writes nothing when given no
rows. -/
theorem C3_empty_result_short_circuit :
    ∀ (llm : ChatRequest → LLMOutcome) (db : List Char → DBResponse)
      (prompt exportAnswer chain model sql : List Char),
      ¬(toLowerStr prompt = str "exit" ∨ toLowerStr prompt = str "quit") →
      trimC prompt ≠ [] →
      generateSQL llm prompt SCHEMA_INFO chain model = GenRes.ok sql →
      qrRowsOf (executeQuery db sql) = some [] →
      Event.sumCall ∉ runTurn llm db prompt exportAnswer chain model ∧
      Event.csvFileWrite ∉ runTurn llm db prompt exportAnswer chain model ∧
      (runTurn llm db prompt exportAnswer chain model).getLast? = some Event.promptAgain ∧
      exportToCSV [] = [Event.csvNoData] := by
  intro llm db prompt exportAnswer chain model sql hx1 hx2 hgen hrows
  have hrun : runTurn llm db prompt exportAnswer chain model =
      [Event.genCall, Event.showSQL sql, Event.dbExec sql,
       Event.showNoResults, Event.promptAgain] := by
    simp only [runTurn, if_neg hx1, if_neg hx2, hgen]
    cases hq : executeQuery db sql with
    | failure e =>
      rw [hq] at hrows
      simp [qrRowsOf] at hrows
    | noResultSet a m => rfl
    | results rows cols rc =>
      rw [hq] at hrows
      simp only [qrRowsOf, Option.some.injEq] at hrows
      subst hrows
      rfl
  rw [hrun]
  refine ⟨by simp, by simp, rfl, rfl⟩

/-- Witness for C3: a concrete turn whose query returns zero rows. -/
theorem C3_empty_result_short_circuit_witness :
    Event.sumCall ∉ runTurn (fun _ => LLMOutcome.ok [some (str "SELECT 1")])
        (fun _ => DBResponse.ok (some []) [str "hash"] 0)
        (str "q") (str "y") (str "base") (str "m") ∧
    Event.csvFileWrite ∉ runTurn (fun _ => LLMOutcome.ok [some (str "SELECT 1")])
        (fun _ => DBResponse.ok (some []) [str "hash"] 0)
        (str "q") (str "y") (str "base") (str "m") ∧
    (runTurn (fun _ => LLMOutcome.ok [some (str "SELECT 1")])
        (fun _ => DBResponse.ok (some []) [str "hash"] 0)
        (str "q") (str "y") (str "base") (str "m")).getLast? = some Event.promptAgain ∧
    exportToCSV [] = [Event.csvNoData] :=
  C3_empty_result_short_circuit (fun _ => LLMOutcome.ok [some (str "SELECT 1")])
    (fun _ => DBResponse.ok (some []) [str "hash"] 0)
    (str "q") (str "y") (str "base") (str "m") (str "SELECT 1")
    (by decide) (by decide) (by decide) rfl

/-- C5. `generateSQL` fails exactly when the remote call errors or
yields no content (no first choice, or a null content); on a thrown
remote error the failure message is the fixed prefix followed by the
upstream error text; and a turn whose generation fails makes the one
generation call, displays the error and returns to the prompt without
ever touching the database. -/
theorem C5_generation_failure :
    (∀ (llm : ChatRequest → LLMOutcome) (prompt schemaInfo chain model : List Char),
      (∃ e, generateSQL llm prompt schemaInfo chain model = GenRes.fail e) ↔
        ((∃ m, llm (genRequest prompt schemaInfo chain model) = LLMOutcome.err m) ∨
         (∃ choices, llm (genRequest prompt schemaInfo chain model) = LLMOutcome.ok choices ∧
           choices.head?.join = none))) ∧
    (∀ (llm : ChatRequest → LLMOutcome) (prompt schemaInfo chain model m : List Char),
      llm (genRequest prompt schemaInfo chain model) = LLMOutcome.err m →
      generateSQL llm prompt schemaInfo chain model =
        GenRes.fail (str "Error generating SQL: " ++ m)) ∧
    (∀ (llm : ChatRequest → LLMOutcome) (db : List Char → DBResponse)
       (prompt exportAnswer chain model e : List Char),
      ¬(toLowerStr prompt = str "exit" ∨ toLowerStr prompt = str "quit") →
      trimC prompt ≠ [] →
      generateSQL llm prompt SCHEMA_INFO chain model = GenRes.fail e →
      runTurn llm db prompt exportAnswer chain model =
        [Event.genCall, Event.showGenError e, Event.promptAgain]) := by
  refine ⟨?_, ?_, ?_⟩
  · intro llm prompt schemaInfo chain model
    cases hllm : llm (genRequest prompt schemaInfo chain model) with
    | err m =>
      simp only [generateSQL, hllm]
      constructor
      · intro _
        exact Or.inl ⟨m, rfl⟩
      · intro _
        exact ⟨_, rfl⟩
    | ok choices =>
      cases hh : choices.head? with
      | none =>
        simp only [generateSQL, hllm, hh]
        constructor
        · intro _
          exact Or.inr ⟨choices, rfl, by rw [hh]; rfl⟩
        · intro _
          exact ⟨_, rfl⟩
      | some c =>
        cases c with
        | none =>
          simp only [generateSQL, hllm, hh]
          constructor
          · intro _
            exact Or.inr ⟨choices, rfl, by rw [hh]; rfl⟩
          · intro _
            exact ⟨_, rfl⟩
        | some content =>
          simp only [generateSQL, hllm, hh]
          constructor
          · rintro ⟨e, he⟩
            cases he
          · rintro (⟨m, hm⟩ | ⟨choices', hc, hj⟩)
            · cases hm
            · injection hc with hc
              subst hc
              rw [hh] at hj
              simp [Option.join] at hj
  · intro llm prompt schemaInfo chain model m h
    unfold generateSQL
    rw [h]
  · intro llm db prompt exportAnswer chain model e hx1 hx2 hfail
    simp only [runTurn, if_neg hx1, if_neg hx2, hfail]

/-- Witness for C5: a concrete erroring model call. -/
theorem C5_generation_failure_witness :
    (∃ e, generateSQL (fun _ => LLMOutcome.err (str "boom")) (str "q") SCHEMA_INFO
        (str "base") (str "m") = GenRes.fail e) ∧
    generateSQL (fun _ => LLMOutcome.err (str "boom")) (str "q") SCHEMA_INFO
        (str "base") (str "m") = GenRes.fail (str "Error generating SQL: boom") ∧
    runTurn (fun _ => LLMOutcome.err (str "boom")) (fun _ => DBResponse.err (str "x"))
        (str "q") (str "n") (str "base") (str "m") =
      [Event.genCall, Event.showGenError (str "Error generating SQL: boom"),
       Event.promptAgain] :=
  ⟨(C5_generation_failure.1 _ _ SCHEMA_INFO _ _).mpr (Or.inl ⟨str "boom", rfl⟩),
   C5_generation_failure.2.1 _ _ SCHEMA_INFO _ _ _ rfl,
   C5_generation_failure.2.2 _ _ _ _ _ _ _ (by decide) (by decide) rfl⟩

/-- Shape of a turn whose execution succeeds with a non-empty row set:
shared by the claims about the display/export/summarize tail. -/
theorem runTurn_success_shape (llm : ChatRequest → LLMOutcome) (db : List Char → DBResponse)
    (prompt exportAnswer chain model sql : List Char)
    (rows : List JObj) (cols : List (List Char)) (rc : Nat)
    (hx1 : ¬(toLowerStr prompt = str "exit" ∨ toLowerStr prompt = str "quit"))
    (hx2 : trimC prompt ≠ [])
    (hgen : generateSQL llm prompt SCHEMA_INFO chain model = GenRes.ok sql)
    (hexec : executeQuery db sql = QueryResult.results rows cols rc)
    (hne : rows ≠ []) :
    runTurn llm db prompt exportAnswer chain model =
      Event.genCall :: Event.showSQL sql :: Event.dbExec sql ::
      Event.showRowCount rc ::
      Event.showTable (formatResultTable (some rows) (some cols)) ::
      Event.askExport ::
      ((if toLowerStr exportAnswer = str "y" then exportToCSV rows else []) ++
       Event.sumCall ::
       (match generateResponse llm prompt sql (QueryResult.results rows cols rc) model with
        | ⟨_, some e⟩ => [Event.showSumError e]
        | ⟨r, none⟩ => [Event.showInsights r]) ++
       [Event.promptAgain]) := by
  have hlen : ¬ rows.length = 0 := fun h => hne (List.length_eq_zero.mp h)
  simp only [runTurn, if_neg hx1, if_neg hx2, hgen, hexec, if_neg hlen]

/-- C6. A failure of `generateResponse` is non-fatal to the turn: the
row count and the rendered result table are displayed strictly before
summarization is attempted, and after the summary error is shown the
turn returns to the prompt loop. -/
theorem C6_summary_failure_nonfatal :
    ∀ (llm : ChatRequest → LLMOutcome) (db : List Char → DBResponse)
      (prompt exportAnswer chain model sql e : List Char)
      (rows : List JObj) (cols : List (List Char)) (rc : Nat),
      ¬(toLowerStr prompt = str "exit" ∨ toLowerStr prompt = str "quit") →
      trimC prompt ≠ [] →
      generateSQL llm prompt SCHEMA_INFO chain model = GenRes.ok sql →
      executeQuery db sql = QueryResult.results rows cols rc →
      rows ≠ [] →
      (generateResponse llm prompt sql (QueryResult.results rows cols rc) model).error = some e →
      ∃ pre post, runTurn llm db prompt exportAnswer chain model =
          pre ++ Event.sumCall :: post ∧
        Event.showRowCount rc ∈ pre ∧
        Event.showTable (formatResultTable (some rows) (some cols)) ∈ pre ∧
        post = [Event.showSumError e, Event.promptAgain] := by
  intro llm db prompt exportAnswer chain model sql e rows cols rc hx1 hx2 hgen hexec hne hsum
  have hshape := runTurn_success_shape llm db prompt exportAnswer chain model sql rows cols rc
    hx1 hx2 hgen hexec hne
  rcases hg : generateResponse llm prompt sql (QueryResult.results rows cols rc) model
    with ⟨resp, errOpt⟩
  rw [hg] at hsum
  simp only at hsum
  subst hsum
  rw [hg] at hshape
  refine ⟨Event.genCall :: Event.showSQL sql :: Event.dbExec sql ::
    Event.showRowCount rc ::
    Event.showTable (formatResultTable (some rows) (some cols)) ::
    Event.askExport ::
    (if toLowerStr exportAnswer = str "y" then exportToCSV rows else []),
    [Event.showSumError e, Event.promptAgain], ?_, by simp, by simp, rfl⟩
  rw [hshape]
  simp [List.cons_append, List.append_assoc]

/-- Witness for C6: a concrete turn whose summarization call errors. -/
theorem C6_summary_failure_nonfatal_witness :
    ∃ pre post,
      runTurn
          (fun req => if req.temperatureTenths = 1
            then LLMOutcome.ok [some (str "SELECT 1")]
            else LLMOutcome.err (str "boom"))
          (fun _ => DBResponse.ok (some [JObj.ocons (str "a") (JVal.jnum 1) JObj.onil])
            [str "a"] 1)
          (str "q") (str "n") (str "base") (str "m") =
        pre ++ Event.sumCall :: post ∧
      Event.showRowCount 1 ∈ pre ∧
      Event.showTable (formatResultTable
        (some [JObj.ocons (str "a") (JVal.jnum 1) JObj.onil]) (some [str "a"])) ∈ pre ∧
      post = [Event.showSumError (str "Error generating response: boom"), Event.promptAgain] :=
  C6_summary_failure_nonfatal
    (fun req => if req.temperatureTenths = 1
      then LLMOutcome.ok [some (str "SELECT 1")]
      else LLMOutcome.err (str "boom"))
    (fun _ => DBResponse.ok (some [JObj.ocons (str "a") (JVal.jnum 1) JObj.onil]) [str "a"] 1)
    (str "q") (str "n") (str "base") (str "m") (str "SELECT 1")
    (str "Error generating response: boom")
    [JObj.ocons (str "a") (JVal.jnum 1) JObj.onil] [str "a"] 1
    (by decide) (by decide) (by decide) rfl (List.cons_ne_nil _ _) rfl

/-- C9. The rendered table body is exactly the cell-rendering map over
the first 10 result rows, in result order — never more than 10 rows —
while the row count displayed by the turn is the driver-reported
`rowCount`, which is not clamped to 10. -/
theorem C9_table_renders_first_ten :
    (∀ (rows : List JObj) (cols : List (List Char)),
      rows ≠ [] →
      formatResultTable (some rows) (some cols) =
        TableView.table cols
          ((rows.take 10).map (fun row => cols.map (fun col => formatValue (rowGet row col)))) ∧
      ((rows.take 10).map
        (fun row => cols.map (fun col => formatValue (rowGet row col)))).length =
          min 10 rows.length) ∧
    (∀ (llm : ChatRequest → LLMOutcome) (db : List Char → DBResponse)
       (prompt exportAnswer chain model sql : List Char)
       (rows : List JObj) (cols : List (List Char)) (rc : Nat),
      ¬(toLowerStr prompt = str "exit" ∨ toLowerStr prompt = str "quit") →
      trimC prompt ≠ [] →
      generateSQL llm prompt SCHEMA_INFO chain model = GenRes.ok sql →
      executeQuery db sql = QueryResult.results rows cols rc →
      rows ≠ [] →
      Event.showRowCount rc ∈ runTurn llm db prompt exportAnswer chain model ∧
      Event.showTable (TableView.table cols
          ((rows.take 10).map (fun row => cols.map (fun col => formatValue (rowGet row col)))))
        ∈ runTurn llm db prompt exportAnswer chain model) := by
  constructor
  · intro rows cols hne
    have hlen : ¬ rows.length = 0 := fun h => hne (List.length_eq_zero.mp h)
    constructor
    · simp only [formatResultTable, if_neg hlen]
    · simp [List.length_take, Nat.min_comm]
  · intro llm db prompt exportAnswer chain model sql rows cols rc hx1 hx2 hgen hexec hne
    have hlen : ¬ rows.length = 0 := fun h => hne (List.length_eq_zero.mp h)
    have hshape := runTurn_success_shape llm db prompt exportAnswer chain model sql rows cols rc
      hx1 hx2 hgen hexec hne
    rw [hshape]
    have htab : formatResultTable (some rows) (some cols) =
        TableView.table cols
          ((rows.take 10).map (fun row => cols.map (fun col => formatValue (rowGet row col)))) := by
      simp only [formatResultTable, if_neg hlen]
    rw [htab]
    exact ⟨by simp, by simp⟩

/-- Witness for C9: eleven rows render as ten; the reported count stays
eleven. -/
theorem C9_table_renders_first_ten_witness :
    (formatResultTable
        (some (List.replicate 11 (JObj.ocons (str "a") (JVal.jnum 7) JObj.onil)))
        (some [str "a"]) =
      TableView.table [str "a"]
        (((List.replicate 11 (JObj.ocons (str "a") (JVal.jnum 7) JObj.onil)).take 10).map
          (fun row => [str "a"].map (fun col => formatValue (rowGet row col)))) ∧
      (((List.replicate 11 (JObj.ocons (str "a") (JVal.jnum 7) JObj.onil)).take 10).map
        (fun row => [str "a"].map (fun col => formatValue (rowGet row col)))).length =
        min 10 (List.replicate 11 (JObj.ocons (str "a") (JVal.jnum 7) JObj.onil)).length) ∧
    Event.showRowCount 11 ∈ runTurn (fun _ => LLMOutcome.ok [some (str "SELECT 1")])
        (fun _ => DBResponse.ok
          (some (List.replicate 11 (JObj.ocons (str "a") (JVal.jnum 7) JObj.onil))) [str "a"] 11)
        (str "q") (str "n") (str "base") (str "m") :=
  ⟨C9_table_renders_first_ten.1
     (List.replicate 11 (JObj.ocons (str "a") (JVal.jnum 7) JObj.onil)) [str "a"]
     (by simp),
   (C9_table_renders_first_ten.2 (fun _ => LLMOutcome.ok [some (str "SELECT 1")])
     (fun _ => DBResponse.ok
       (some (List.replicate 11 (JObj.ocons (str "a") (JVal.jnum 7) JObj.onil))) [str "a"] 11)
     (str "q") (str "n") (str "base") (str "m") (str "SELECT 1")
     (List.replicate 11 (JObj.ocons (str "a") (JVal.jnum 7) JObj.onil)) [str "a"] 11
     (by decide) (by decide) (by decide) rfl (by simp)).1⟩

/-- An infix of `t` is an infix of `t ++ b`. -/
theorem infix_extend_right (x t b : List Char) (h : x <:+: t) : x <:+: t ++ b := by
  obtain ⟨s, u, rfl⟩ := h
  exact ⟨s, u ++ b, by simp⟩

/-- C4. The summary user message embeds the original question, the
executed (sanitized) query text, the row count, the `", "`-joined column
names and the 2-space-indented JSON serialization of at most the first
5 result rows; with exactly 3 rows, exactly those 3 rows are
serialized. -/
theorem C4_summary_message_embeds :
    ∀ (prompt sql : List Char) (rows : List JObj) (cols : List (List Char)) (rc : Nat),
      rows ≠ [] →
      prompt <:+: summaryUserMessage prompt sql (QueryResult.results rows cols rc) ∧
      sql <:+: summaryUserMessage prompt sql (QueryResult.results rows cols rc) ∧
      str (Nat.repr rows.length) <:+:
        summaryUserMessage prompt sql (QueryResult.results rows cols rc) ∧
      List.intercalate (str ", ") cols <:+:
        summaryUserMessage prompt sql (QueryResult.results rows cols rc) ∧
      jstringifyI 0 (JVal.jarr (jarrOfList ((rows.take 5).map JVal.jobj))) <:+:
        summaryUserMessage prompt sql (QueryResult.results rows cols rc) ∧
      (rows.length = 3 →
        jstringifyI 0 (JVal.jarr (jarrOfList ((rows.take 5).map JVal.jobj))) =
          jstringifyI 0 (JVal.jarr (jarrOfList (rows.map JVal.jobj)))) := by
  intro prompt sql rows cols rc hne
  have hpos : 0 < rows.length := List.length_pos.mpr hne
  simp only [summaryUserMessage, qrRowsOf, qrColsOf, if_pos hpos]
  refine ⟨?_, ?_, ?_, ?_, ?_, ?_⟩
  · exact infix_extend_right _ _ _ (infix_extend_right _ _ _ (infix_extend_right _ _ _
      (infix_extend_right _ _ _ (infix_extend_right _ _ _ (infix_extend_right _ _ _
        (infix_extend_right _ _ _ (infix_extend_right _ _ _ (infix_extend_right _ _ _
          ((List.suffix_append _ _).isInfix)))))))))
  · exact infix_extend_right _ _ _ (infix_extend_right _ _ _ (infix_extend_right _ _ _
      (infix_extend_right _ _ _ (infix_extend_right _ _ _ (infix_extend_right _ _ _
        (infix_extend_right _ _ _ ((List.suffix_append _ _).isInfix)))))))
  · exact infix_extend_right _ _ _ (infix_extend_right _ _ _ (infix_extend_right _ _ _
      (infix_extend_right _ _ _ (infix_extend_right _ _ _
        ((List.suffix_append _ _).isInfix)))))
  · exact infix_extend_right _ _ _ (infix_extend_right _ _ _ (infix_extend_right _ _ _
      ((List.suffix_append _ _).isInfix)))
  · exact infix_extend_right _ _ _ ((List.suffix_append _ _).isInfix)
  · intro h3
    rw [List.take_of_length_le (by omega)]

/-- Witness for C4 at the spec's 3-row scenario. -/
theorem C4_summary_message_embeds_witness :
    jstringifyI 0 (JVal.jarr (jarrOfList
        (([JObj.ocons (str "h") (JVal.jstr (str "x1")) JObj.onil,
           JObj.ocons (str "h") (JVal.jstr (str "x2")) JObj.onil,
           JObj.ocons (str "h") (JVal.jstr (str "x3")) JObj.onil].take 5).map JVal.jobj))) <:+:
      summaryUserMessage (str "q") (str "SELECT 1")
        (QueryResult.results
          [JObj.ocons (str "h") (JVal.jstr (str "x1")) JObj.onil,
           JObj.ocons (str "h") (JVal.jstr (str "x2")) JObj.onil,
           JObj.ocons (str "h") (JVal.jstr (str "x3")) JObj.onil]
          [str "h", str "n"] 3) ∧
    jstringifyI 0 (JVal.jarr (jarrOfList
        (([JObj.ocons (str "h") (JVal.jstr (str "x1")) JObj.onil,
           JObj.ocons (str "h") (JVal.jstr (str "x2")) JObj.onil,
           JObj.ocons (str "h") (JVal.jstr (str "x3")) JObj.onil].take 5).map JVal.jobj))) =
      jstringifyI 0 (JVal.jarr (jarrOfList
        ([JObj.ocons (str "h") (JVal.jstr (str "x1")) JObj.onil,
          JObj.ocons (str "h") (JVal.jstr (str "x2")) JObj.onil,
          JObj.ocons (str "h") (JVal.jstr (str "x3")) JObj.onil].map JVal.jobj))) :=
  ⟨(C4_summary_message_embeds (str "q") (str "SELECT 1")
      [JObj.ocons (str "h") (JVal.jstr (str "x1")) JObj.onil,
       JObj.ocons (str "h") (JVal.jstr (str "x2")) JObj.onil,
       JObj.ocons (str "h") (JVal.jstr (str "x3")) JObj.onil]
      [str "h", str "n"] 3 (List.cons_ne_nil _ _)).2.2.2.2.1,
   (C4_summary_message_embeds (str "q") (str "SELECT 1")
      [JObj.ocons (str "h") (JVal.jstr (str "x1")) JObj.onil,
       JObj.ocons (str "h") (JVal.jstr (str "x2")) JObj.onil,
       JObj.ocons (str "h") (JVal.jstr (str "x3")) JObj.onil]
      [str "h", str "n"] 3 (List.cons_ne_nil _ _)).2.2.2.2.2 rfl⟩

set_option maxRecDepth 100000 in
/-- C7. For every schema text and every partition key (chain name), the
generation system message contains the literal table-suffix rule binding
table names to the suffix `_<chain>` except for the cross-partition
`users` table. -/
theorem C7_partition_rule_in_system_message (schemaInfo chain : List Char) :
    str "Use table names with the suffix \x27_" ++ chain ++
      str "\x27 unless referring to the \x27users\x27 table" <:+:
    genSystemMessage schemaInfo chain := by
  have h4 : str "\n\nImportant SQL writing guidelines:\n1. Always generate valid PostgreSQL syntax\n2. Use table names with the suffix \x27_" =
      str "\n\nImportant SQL writing guidelines:\n1. Always generate valid PostgreSQL syntax\n2. " ++
        str "Use table names with the suffix \x27_" := by decide
  have h5 : str "\x27 unless referring to the \x27users\x27 table\n3. Handle quoting properly for reserved words like \"from\" and \"to\" in table columns\n4. Cast numeric strings to appropriate types (DECIMAL, BIGINT) when needed for math operations\n5. Use TO_TIMESTAMP() for timestamp conversions when needed\n6. Format timestamps in human-readable format when returning them\n7. Use proper JOIN syntax when combining tables\n8. Add LIMIT clauses (usually LIMIT 10 or 20) unless asked for all records\n9. Add proper WHERE clauses to filter data based on the user\x27s question\n10. NEVER use column names that don\x27t exist in the tables\n\nOUTPUT FORMAT: Return ONLY the SQL query, no explanations or markdown formatting." =
      str "\x27 unless referring to the \x27users\x27 table" ++
        str "\n3. Handle quoting properly for reserved words like \"from\" and \"to\" in table columns\n4. Cast numeric strings to appropriate types (DECIMAL, BIGINT) when needed for math operations\n5. Use TO_TIMESTAMP() for timestamp conversions when needed\n6. Format timestamps in human-readable format when returning them\n7. Use proper JOIN syntax when combining tables\n8. Add LIMIT clauses (usually LIMIT 10 or 20) unless asked for all records\n9. Add proper WHERE clauses to filter data based on the user\x27s question\n10. NEVER use column names that don\x27t exist in the tables\n\nOUTPUT FORMAT: Return ONLY the SQL query, no explanations or markdown formatting." := by decide
  refine ⟨str "You are an expert SQL generator for a blockchain database. \nYour task is to convert natural language questions into PostgreSQL queries.\n\n" ++
      schemaInfo ++ str "\n\n" ++ BLOCKCHAIN_CONTEXT ++ str "\n\n" ++ EXAMPLE_QUERIES ++
      str "\n\nImportant SQL writing guidelines:\n1. Always generate valid PostgreSQL syntax\n2. ",
    str "\n3. Handle quoting properly for reserved words like \"from\" and \"to\" in table columns\n4. Cast numeric strings to appropriate types (DECIMAL, BIGINT) when needed for math operations\n5. Use TO_TIMESTAMP() for timestamp conversions when needed\n6. Format timestamps in human-readable format when returning them\n7. Use proper JOIN syntax when combining tables\n8. Add LIMIT clauses (usually LIMIT 10 or 20) unless asked for all records\n9. Add proper WHERE clauses to filter data based on the user\x27s question\n10. NEVER use column names that don\x27t exist in the tables\n\nOUTPUT FORMAT: Return ONLY the SQL query, no explanations or markdown formatting.", ?_⟩
  simp only [genSystemMessage]
  rw [h4, h5]
  simp [List.append_assoc]

/-- C8. The display-formatting step renders a null cell as the literal
`NULL`; a string cell longer than 30 characters as its first 30
characters followed by the ellipsis marker; and a string cell of at most
30 characters unchanged. -/
theorem C8_cell_truncation :
    formatValue (some JVal.jnull) = str "NULL" ∧
    (∀ s : List Char, 30 < s.length →
      formatValue (some (JVal.jstr s)) = s.take 30 ++ str "...") ∧
    (∀ s : List Char, s.length ≤ 30 → formatValue (some (JVal.jstr s)) = s) := by
  refine ⟨rfl, ?_, ?_⟩
  · intro s h
    simp only [formatValue, truncate30, if_pos h]
  · intro s h
    simp only [formatValue, truncate30, if_neg (Nat.not_lt.mpr h), List.append_nil,
      List.take_of_length_le h]

/-- Witness for C8 on a 31-character and a 5-character string value. -/
theorem C8_cell_truncation_witness :
    30 < (str "0123456789012345678901234567890").length ∧
    formatValue (some (JVal.jstr (str "0123456789012345678901234567890"))) =
      (str "0123456789012345678901234567890").take 30 ++ str "..." ∧
    (str "short").length ≤ 30 ∧
    formatValue (some (JVal.jstr (str "short"))) = str "short" :=
  ⟨by decide, C8_cell_truncation.2.1 _ (by decide), by decide,
   C8_cell_truncation.2.2 _ (by decide)⟩

/-- The truncated form always ends in the ellipsis dot. -/
theorem truncate30_getLast (X : List Char) (h : 30 < X.length) :
    (truncate30 X).getLast? = some '.' := by
  simp only [truncate30, if_pos h]
  rw [show str "..." = ['.', '.'] ++ ['.'] from rfl, ← List.append_assoc, List.getLast?_concat]

/-- A serialized JSON object always ends in its closing brace. -/
theorem jstringifyC_jobj_getLast (f : JObj) :
    (jstringifyC (JVal.jobj f)).getLast? = some '\x7d' := by
  show ('\x7b' :: (jobjBodyC f ++ ['\x7d'])).getLast? = _
  rw [← List.cons_append, List.getLast?_concat]

/-- C10. A non-null cell of object type is rendered as its full JSON
serialization: the object (and array) branch returns the serialization
itself, and even when that serialization exceeds 30 characters the
rendering is not the 30-character-plus-ellipsis truncation applied to
other values. -/
theorem C10_object_cells_full_json :
    (∀ fields : JObj, formatValue (some (JVal.jobj fields)) = jstringifyC (JVal.jobj fields)) ∧
    (∀ items : JArr, formatValue (some (JVal.jarr items)) = jstringifyC (JVal.jarr items)) ∧
    (∀ fields : JObj, 30 < (jstringifyC (JVal.jobj fields)).length →
      formatValue (some (JVal.jobj fields)) ≠ truncate30 (jstringifyC (JVal.jobj fields))) := by
  refine ⟨fun _ => rfl, fun _ => rfl, ?_⟩
  intro fields h heq
  simp only [formatValue] at heq
  have h1 := congrArg List.getLast? heq
  rw [jstringifyC_jobj_getLast, truncate30_getLast _ h] at h1
  exact absurd h1 (by decide)

/-- Witness for C10 on an object whose JSON is 42 characters long. -/
theorem C10_object_cells_full_json_witness :
    formatValue (some (JVal.jobj (JObj.ocons (str "data")
        (JVal.jstr (str "0123456789012345678901234567890")) JObj.onil))) =
      jstringifyC (JVal.jobj (JObj.ocons (str "data")
        (JVal.jstr (str "0123456789012345678901234567890")) JObj.onil)) ∧
    30 < (jstringifyC (JVal.jobj (JObj.ocons (str "data")
        (JVal.jstr (str "0123456789012345678901234567890")) JObj.onil))).length ∧
    formatValue (some (JVal.jobj (JObj.ocons (str "data")
        (JVal.jstr (str "0123456789012345678901234567890")) JObj.onil))) ≠
      truncate30 (jstringifyC (JVal.jobj (JObj.ocons (str "data")
        (JVal.jstr (str "0123456789012345678901234567890")) JObj.onil))) :=
  ⟨C10_object_cells_full_json.1 _, by decide,
   C10_object_cells_full_json.2.2 _ (by decide)⟩
